import Mathlib

/-!
Verification of the JOBLASS ingestion workflow and deduplication engine.

This file gives a shallow embedding, in Lean 4, of the core components of the
JOBLASS repository (job-search scraping pipeline):

* `src/joblass/utils/control.py` — the pause/stop control signal,
* `src/joblass/db/models.py` — the `SearchSession` lifecycle, the `Job` and
  `Company` models and the `ScrapedJobData` validation gate,
* `src/joblass/db/repository.py` and `src/joblass/db/connection.py` — the
  persistence layer (job insertion against the SQLite schema),
* `src/joblass/workflows/search_job_glassdoor_workflow.py` — the orchestrator
  (`start_search`, `complete_search`, `run`, `save_companies_to_db`,
  `save_jobs_to_db`).

Machine integers do not occur on the verified paths; counters are `Nat`.
External collaborators (the Selenium driver, the SQLite engine) are modelled
as explicit outcome parameters: each call that can fail or return data is a
`Except String` value supplied to the orchestrator model, mirroring the fact
that the Python code treats them as opaque calls that either return or raise.
-/

/-! ## Control signal — src/joblass/utils/control.py

`ScraperControl` holds two thread flags.  `wait_if_paused` busy-waits while
paused and not stopped; another thread may flip the flags between two polls,
so the model takes the sequence of flag states observed at each poll as a
function `Nat → ScraperControl`, plus a fuel bound (the Python loop has no
bound; a run that never unblocks is modelled as fuel exhaustion `none`).
The accumulated in-memory results of the caller are threaded through
untouched, mirroring that the Python loop body touches nothing but the flags.
-/

structure ScraperControl where
  stopFlag : Bool
  pauseFlag : Bool
deriving Repr, DecidableEq

namespace ScraperControl

def is_stopped (c : ScraperControl) : Bool := c.stopFlag

def is_paused (c : ScraperControl) : Bool := c.pauseFlag

/-- Loop condition of `wait_if_paused`: `self.is_paused() and not self.is_stopped()`. -/
def blocked (c : ScraperControl) : Bool := c.is_paused && !c.is_stopped

end ScraperControl

def waitIfPausedAux (flags : Nat → ScraperControl) (res : α) :
    Nat → Nat → Option (Nat × α)
  | 0, _ => none
  | fuel + 1, i =>
    if (flags i).blocked then waitIfPausedAux flags res fuel (i + 1)
    else some (i, res)

/-- Embeds `ScraperControl.wait_if_paused`: polls the flags starting at observation 0;
returns the index of the first poll at which the loop condition is false,
with the caller's results unchanged. -/
def wait_if_paused (flags : Nat → ScraperControl) (fuel : Nat) (res : α) :
    Option (Nat × α) :=
  waitIfPausedAux flags res fuel 0

/-- Flag trace used as a concrete input: always paused, stop requested from
the third poll on. -/
def pausedThenStopped : Nat → ScraperControl :=
  fun i => ⟨decide (2 ≤ i), true⟩

/-- Flag trace used as a concrete input: running normally (neither flag). -/
def runningFlags : Nat → ScraperControl :=
  fun _ => ⟨false, false⟩

/-! ## Session lifecycle — src/joblass/db/models.py, class SearchSession

Fields are the persisted columns the workflow touches; `search_criteria` and
the timestamps are not modelled (`updated_at` is refreshed by every mutator
and carries no lifecycle information).
-/

structure SearchSession where
  id : Option Nat
  jobs_found : Nat
  jobs_scraped : Nat
  jobs_saved : Nat
  jobs_skipped : Nat
  status : String
  error_message : Option String
deriving Repr, DecidableEq

namespace SearchSession

/-- A fresh session as built by `SearchSession(search_criteria=...)`:
status defaults to `"in_progress"`, all counters to 0. -/
def new : SearchSession :=
  { id := none, jobs_found := 0, jobs_scraped := 0, jobs_saved := 0
    jobs_skipped := 0, status := "in_progress", error_message := none }

/-- Embeds `SearchSession.mark_completed`: unconditionally sets status and the three
final counters (the Python method has no guard on the current status). -/
def mark_completed (s : SearchSession)
    (jobs_scraped jobs_saved jobs_skipped : Nat) : SearchSession :=
  { s with status := "completed", jobs_scraped := jobs_scraped
           jobs_saved := jobs_saved, jobs_skipped := jobs_skipped }

/-- Embeds `SearchSession.mark_failed`: unconditionally sets status and the error
message (no guard on the current status). -/
def mark_failed (s : SearchSession) (msg : String) : SearchSession :=
  { s with status := "failed", error_message := some msg }

end SearchSession

/-! ## Identity hasher

A candidate posting as the hash and insert paths see it. -/

structure JobCandidate where
  title : String
  company : String
  location : String
  url : String
  source : String
  job_external_id : Option String
deriving Repr, DecidableEq

/-- Cut a character list at whitespace characters into (possibly empty)
word segments. -/
def wsWords (l : List Char) : List (List Char) :=
  l.foldr
    (fun c ws =>
      if c.isWhitespace then [] :: ws
      else
        match ws with
        | [] => [[c]]
        | w :: rest => (c :: w) :: rest)
    []

/-- Rejoin word segments with single spaces. -/
def joinWords : List (List Char) → List Char
  | [] => []
  | [w] => w
  | w :: ws => w ++ ' ' :: joinWords ws

/-- Lower-case, then collapse internal whitespace runs and strip the ends:
keep the non-empty whitespace-separated words, rejoined by single spaces. -/
def normalizeField (s : String) : String :=
  String.mk (joinWords ((wsWords (s.data.map Char.toLower)).filter (· ≠ [])))

/-- Modelled from the spec: the identity-hash input.  `Job.generate_hash` is
referenced by `src/joblass/db/connection.py` (`migrate_db`) and by
`tests/test_deduplication.py`, but its definition is absent from
`src/joblass/db/models.py`; spec 4.1 gives the contract: if the candidate
carries a source-assigned external identifier the hash input is
`source || external_id`, otherwise the pipe-joined, lower-cased,
whitespace-collapsed tuple `(title, organization, location, source)`.
The transport URL is never part of the input. -/
def hashInput (j : JobCandidate) : String :=
  match j.job_external_id with
  | some eid => j.source ++ "|" ++ eid
  | none =>
    "|".intercalate [normalizeField j.title, normalizeField j.company,
      normalizeField j.location, normalizeField j.source]

def hexDigit (n : Nat) : Char :=
  if n < 10 then Char.ofNat (48 + n) else Char.ofNat (87 + n)

def toHex16Aux : Nat → Nat → List Char → List Char
  | 0, _, acc => acc
  | w + 1, n, acc => toHex16Aux w (n / 16) (hexDigit (n % 16) :: acc)

/-- Print a number as exactly 16 hex digits (the fixed token length the
repository's tests demand of the hash). -/
def toHex16 (n : Nat) : String := String.mk (toHex16Aux 16 n [])

/-- Deterministic 64-bit string digest standing in for the source's digest of
the hash input (the spec asks for a fixed short length sufficient for
practical collision avoidance, not cryptographic strength). -/
def strHashNat (s : String) : Nat :=
  s.foldl (fun h c => (h * 131 + c.toNat) % 2 ^ 64) 5381

/-- Modelled from the spec: `Job.generate_hash` (see `hashInput`). -/
def generate_hash (j : JobCandidate) : String := toHex16 (strHashNat (hashInput j))

/-- Spec scenario 2, raw form: extra whitespace and different case. -/
def mlEngineerRaw : JobCandidate :=
  { title := "  ml  engineer  ", company := " GOOGLE ", location := "  paris  "
    url := "https://glassdoor.com/job/999", source := "glassdoor"
    job_external_id := none }

/-- Spec scenario 2, clean form: same logical posting, different URL. -/
def mlEngineerClean : JobCandidate :=
  { title := "ML Engineer", company := "Google", location := "paris"
    url := "https://glassdoor.com/job/456", source := "glassdoor"
    job_external_id := none }

/-! ## Validation gate — src/joblass/db/models.py, class ScrapedJobData

Pydantic v2 semantics embedded: a field declared with `min_length=1` is
checked against the raw value first; the `strip_whitespace` field validator
(default mode, after) then trims the value that already passed the length
check.  A missing required field is rejected outright.  `validate_url`
trims and requires an http/https scheme; the skills validators trim entries,
drop empty ones and deduplicate preserving first-seen order. -/

structure RawJobData where
  job_title : Option String
  company : Option String
  location : Option String
  url : Option String
  job_age : Int
  verified_skills : List String
  required_skills : List String
deriving Repr, DecidableEq

structure ValidatedJobData where
  job_title : String
  company : String
  location : String
  url : Option String
  job_age : Int
  verified_skills : List String
  required_skills : List String
deriving Repr, DecidableEq

/-- Python-style strip of leading and trailing whitespace, at character-list
level so that concrete instances evaluate inside the kernel. -/
def pyStrip (s : String) : String :=
  String.mk (((s.data.dropWhile Char.isWhitespace).reverse.dropWhile
    Char.isWhitespace).reverse)

/-- Python-style startswith, at character-list level. -/
def pyStartsWith (s p : String) : Bool := p.data.isPrefixOf s.data

/-- One required string field: reject if missing, apply `min_length=1` to the
raw value, then strip (the order pydantic uses for an after-validator). -/
def validateRequired (fieldName : String) (v : Option String) :
    Except String String :=
  match v with
  | none => .error (fieldName ++ ": Field required")
  | some s =>
    if s.length < 1 then .error (fieldName ++ ": String should have at least 1 character")
    else .ok (pyStrip s)

/-- Embeds `validate_url` of `ScrapedJobData`: `None` passes, otherwise trim and
require an http/https scheme. -/
def validateUrlOpt (v : Option String) : Except String (Option String) :=
  match v with
  | none => .ok none
  | some u =>
    let u' := pyStrip u
    if pyStartsWith u' "http://" || pyStartsWith u' "https://" then .ok (some u')
    else .error "URL must start with http:// or https://"

def dedupFirstAux (seen : List String) : List String → List String
  | [] => []
  | x :: xs =>
    if seen.contains x then dedupFirstAux seen xs
    else x :: dedupFirstAux (seen ++ [x]) xs

/-- Embeds `remove_empty_skills`: strip entries, drop empty/whitespace-only ones,
remove duplicates preserving first-seen order (`dict.fromkeys`). -/
def cleanSkills (v : List String) : List String :=
  dedupFirstAux [] ((v.filter (fun s => s ≠ "" && pyStrip s ≠ "")).map pyStrip)

/-- Constraint `ge=0` on `job_age`. -/
def validateJobAge (n : Int) : Except String Unit :=
  if n < 0 then .error "job_age: Input should be greater than or equal to 0"
  else .ok ()

/-- Validation of a raw field map into a `ScrapedJobData` record; `.error`
is pydantic's `ValidationError`. -/
def scrapedJobDataValidate (r : RawJobData) : Except String ValidatedJobData := do
  let t ← validateRequired "job_title" r.job_title
  let c ← validateRequired "company" r.company
  let l ← validateRequired "location" r.location
  let _ ← validateJobAge r.job_age
  let u ← validateUrlOpt r.url
  pure { job_title := t, company := c, location := l, url := u
         job_age := r.job_age
         verified_skills := cleanSkills r.verified_skills
         required_skills := cleanSkills r.required_skills }

/-- Embeds `GlassdoorScraper.extract_and_validate_job`: a `ValidationError` is caught
and reported as `None` (skip this candidate), never propagated. -/
def extract_and_validate_job (raw : RawJobData) : Option ValidatedJobData :=
  match scrapedJobDataValidate raw with
  | .ok v => some v
  | .error _ => none

/-- A raw field map whose title is a single space: non-empty before trimming,
empty after. -/
def whitespaceTitleRaw : RawJobData :=
  { job_title := some " ", company := some "Google", location := some "Paris"
    url := some "https://glassdoor.com/job/1", job_age := 0
    verified_skills := [], required_skills := [] }

/-- The same map with the title absent. -/
def missingTitleRaw : RawJobData :=
  { whitespaceTitleRaw with job_title := none }

/-! ## Job insertion — src/joblass/db/repository.py, JobRepository.insert

`insert` builds a 26-place parameter tuple by reading attributes of the
`Job` argument, then runs an INSERT against the `jobs` table of
`SCHEMA_JOBS` (src/joblass/db/connection.py).  `sqlite3.IntegrityError` is
caught and reported as `None` (the duplicate path); any other exception is
logged and re-raised. -/

/-- Attribute names available on a `Job` instance
(src/joblass/db/models.py): its SQLModel fields, relationship attributes and
`@property` helpers. -/
def jobModelAttrs : List String :=
  ["id", "title", "company", "location", "url", "source", "scraped_date",
   "job_age", "posted_date", "job_type", "remote_option", "is_easy_apply",
   "job_external_id", "description", "tech_stack", "salary_estimate",
   "company_id", "session_id", "created_at", "updated_at",
   "company_rel", "session", "scores", "applications",
   "salary_min", "salary_max", "salary_median", "salary_currency"]

/-- Attributes of `job` read by `JobRepository.insert` to build the INSERT
parameter tuple. -/
def insertAccessedAttrs : List String :=
  ["title", "company", "location", "url", "source", "description",
   "tech_stack", "salary_min", "salary_max", "salary_median",
   "salary_currency", "posted_date", "scraped_date", "job_age", "job_type",
   "remote_option", "is_easy_apply", "job_external_id", "company_size",
   "company_industry", "company_sector", "company_founded", "company_type",
   "company_revenue", "reviews_data", "session_id"]

/-- Column list of the INSERT statement in `JobRepository.insert`. -/
def insertColumns : List String :=
  ["title", "company", "location", "url", "source", "description",
   "tech_stack", "salary_min", "salary_max", "salary_median",
   "salary_currency", "posted_date", "scraped_date", "job_age", "job_type",
   "remote_option", "is_easy_apply", "job_external_id", "company_size",
   "company_industry", "company_sector", "company_founded", "company_type",
   "company_revenue", "reviews_data", "session_id"]

/-- NOT NULL columns of the `jobs` table that have no default
(`SCHEMA_JOBS` in src/joblass/db/connection.py; `id` autoincrements and the
two audit timestamps default to CURRENT_TIMESTAMP). -/
def jobsNotNullNoDefault : List String :=
  ["title", "company", "location", "url", "job_hash", "source", "scraped_date"]

inductive InsertOutcome
  | inserted (id : Nat)
  | dupNone
  | raised (msg : String)
deriving Repr, DecidableEq

/-- True when every attribute the INSERT parameter tuple reads exists on the
`Job` model; in the source this is where execution either proceeds or dies
with `AttributeError`. -/
def jobInsertAttrsResolve : Bool :=
  insertAccessedAttrs.all (jobModelAttrs.contains ·)

/-- A stored row, keyed by the columns the uniqueness constraints mention. -/
structure JobRow where
  job_hash : Option String
  url : String
deriving Repr, DecidableEq

/-- Embeds `JobRepository.insert`: resolve the parameter-tuple attributes (a missing
attribute raises `AttributeError`, and the blanket `except Exception`
re-raises it); then execute the INSERT — a NOT NULL column without default
that the column list omits receives NULL and raises
`sqlite3.IntegrityError`, which the duplicate branch turns into `None`.
The only UNIQUE column of `SCHEMA_JOBS` is `job_hash`, which the INSERT does
not supply (a NULL never collides under SQLite UNIQUE), so no uniqueness
conflict is possible and a fresh row id is returned otherwise. -/
def JobRepository_insert (db : List JobRow) (job : JobCandidate) : InsertOutcome :=
  if jobInsertAttrsResolve then
    if jobsNotNullNoDefault.all (insertColumns.contains ·) then
      .inserted (db.length + 1)
    else .dupNone
  else .raised "AttributeError"

/-- Spec scenario 1: candidate with external id `GD-12345`, first arrival. -/
def jobGD12345 : JobCandidate :=
  { title := "ML Engineer", company := "Google", location := "Paris"
    url := "https://glassdoor.com/job/123", source := "glassdoor"
    job_external_id := some "GD-12345" }

/-! ## Organization entity and merge resolver

The durable `Company` record is src/joblass/db/models.py (name unique,
`page_source` one of `"job_posting"`, `"company_profile"`, `"merged"`; JSON
payload columns).  The JSON dictionaries are modelled as association lists;
the merge logic never inspects the values, only key presence. -/

abbrev JsonDict := List (String × String)

def dlookup (d : JsonDict) (k : String) : Option String :=
  (d.find? (fun kv => kv.1 == k)).map (·.2)

structure Company where
  name : String
  source : String
  page_source : String
  profile_url : Option String
  overview : JsonDict
  evaluations : JsonDict
  reviews_summary : Option String
  salary_estimates : Option String
deriving Repr, DecidableEq

/-- Case-folded, whitespace-trimmed name under which organization uniqueness
is enforced. -/
def normName (s : String) : String :=
  String.mk ((pyStrip s).data.map Char.toLower)

/-- First non-absent of two optional fields. -/
def optFirst (a b : Option α) : Option α :=
  match a with
  | some x => some x
  | none => b

/-- Union of two JSON dictionaries; on a key collision the first argument
wins. -/
def dictUnion (pri sec : JsonDict) : JsonDict :=
  pri ++ sec.filter (fun kv => (dlookup pri kv.1).isNone)

inductive MergeDecision
  | Insert
  | Ignore
  | MergeUpgrade
deriving Repr, DecidableEq

/-- Modelled from the spec: the Entity Merge Resolver decision table of
spec 4.3.  `CompanyRepository` is exported by src/joblass/db/__init__.py and
called by the workflow and by tests/integration/test_repositories.py, but its
definition is absent from src/joblass/db/repository.py.  Same provenance on
both sides is `Ignore` (existing wins); partial-from-posting upgraded by
full-from-profile, and full/merged refreshed by partial-from-posting, are
`MergeUpgrade`; combinations the spec leaves open default to `Ignore`
(spec 9: "no-op, existing wins"). -/
def resolve (existing : Option Company) (incoming : Company) : MergeDecision :=
  match existing with
  | none => .Insert
  | some e =>
    if e.page_source = incoming.page_source then .Ignore
    else if e.page_source = "job_posting" ∧ incoming.page_source = "company_profile" then
      .MergeUpgrade
    else if (e.page_source = "company_profile" ∨ e.page_source = "merged") ∧
        incoming.page_source = "job_posting" then
      .MergeUpgrade
    else .Ignore

/-- Modelled from the spec: the upgrade path (spec 4.3 step 3) — copy the
incoming full-from-profile overview/evaluation fields onto the existing
record (incoming wins per key, existing keys it lacks are kept), set
provenance to merged, adopt the incoming profile reference if the existing
one is absent. -/
def mergeUpgradeFromProfile (e inc : Company) : Company :=
  { e with page_source := "merged"
           overview := dictUnion inc.overview e.overview
           evaluations := dictUnion inc.evaluations e.evaluations
           profile_url := optFirst e.profile_url inc.profile_url
           reviews_summary := optFirst e.reviews_summary inc.reviews_summary
           salary_estimates := optFirst e.salary_estimates inc.salary_estimates }

/-- Modelled from the spec: the restricted path (spec 4.3 step 4) — a
partial-from-posting observation may only fill fields the existing
full/merged record lacks; provenance is never downgraded. -/
def mergeRestrictedFromPosting (e inc : Company) : Company :=
  { e with overview := dictUnion e.overview inc.overview
           evaluations := dictUnion e.evaluations inc.evaluations
           profile_url := optFirst e.profile_url inc.profile_url
           reviews_summary := optFirst e.reviews_summary inc.reviews_summary
           salary_estimates := optFirst e.salary_estimates inc.salary_estimates }

/-- Merged record for a `MergeUpgrade` decision, choosing the path by the
two provenances. -/
def mergeCompanies (e inc : Company) : Company :=
  if e.page_source = "job_posting" ∧ inc.page_source = "company_profile" then
    mergeUpgradeFromProfile e inc
  else mergeRestrictedFromPosting e inc

/-- True when a stored company matches the incoming one under the
case-insensitive name key. -/
def nameMatches (inc : Company) (c : Company) : Bool :=
  normName c.name == normName inc.name

def replaceFirst (p : Company → Bool) (x : Company) : List Company → List Company
  | [] => []
  | c :: cs => if p c then x :: cs else c :: replaceFirst p x cs

/-- Modelled from the spec: `CompanyRepository.upsert` — look up the existing
organization by case-insensitive name; absent means insert; otherwise apply
the resolver's decision, replacing the stored record on `MergeUpgrade` and
leaving the store untouched on `Ignore`. -/
def CompanyRepository_upsert (db : List Company) (incoming : Company) :
    List Company :=
  match db.find? (nameMatches incoming) with
  | none => db ++ [incoming]
  | some e =>
    match resolve (some e) incoming with
    | .MergeUpgrade => replaceFirst (nameMatches incoming) (mergeCompanies e incoming) db
    | _ => db

/-- Integration-test scenario: Acme Corp first observed on a job posting. -/
def acmeFromPosting : Company :=
  { name := "Acme Corp", source := "glassdoor", page_source := "job_posting"
    profile_url := none, overview := [("size", "500-1000")]
    evaluations := [], reviews_summary := none, salary_estimates := none }

/-- Integration-test scenario: Acme Corp later observed on its profile page. -/
def acmeFromProfile : Company :=
  { name := "Acme Corp", source := "glassdoor", page_source := "company_profile"
    profile_url := some "https://glassdoor.com/acme"
    overview := [("size", "500-1000"), ("industry", "Technology"), ("founded", "2005")]
    evaluations := [("global_rating", "4.5"), ("reviews_count", "200")]
    reviews_summary := none, salary_estimates := none }

/-! ## Workflow orchestrator — src/joblass/workflows/search_job_glassdoor_workflow.py

The orchestrator's collaborator calls are modelled as outcome parameters:
`SearchSessionRepository.insert` may return an id or fail (`Option Nat`; the
repository catches its own exceptions), the workflow-level
`fill_search_form` and `apply_advanced_filters` may raise (they reach
`ExtraFilters.__init__`, which raises `NoSuchElementException`), scraping
returns lists or raises, and the per-item persistence outcomes are indexed
functions.  An `Except.error e` is a Python exception carrying `str(e) = e`.
`SearchSessionRepository.update` catches internally and cannot raise; the
`effects` list records each externally visible action in order, and is how
"nothing was performed" is stated.  The stop flag is taken constant over the
persistence phase; `check_should_stop` raises
`InterruptedError("User stopped the scraper")` when it is set
(src/joblass/utils/control.py), and `wait_if_paused` is the no-op modelled
separately above. -/

structure ScrapedCompany where
  company_name : String
deriving Repr, DecidableEq

inductive JobSaveRes
  | saved
  | dup
  | failedErr
deriving Repr, DecidableEq

structure SaveStats where
  saved : Nat
  skipped : Nat
  failed : Nat
deriving Repr, DecidableEq

/-- Embeds `check_should_stop`: raises `InterruptedError` with this exact
message when the stop flag is set. -/
def check_should_stop (stop : Bool) : Except String Unit :=
  if stop then .error "User stopped the scraper" else .ok ()

def saveCompaniesLoop (stop : Bool) (upsertRes : Nat → Option Nat) :
    List ScrapedCompany → Nat → List (String × Nat) →
      Except String (List (String × Nat))
  | [], _, acc => .ok acc
  | c :: rest, i, acc =>
    match check_should_stop stop with
    | .error e => .error e
    | .ok _ =>
      match upsertRes i with
      | some cid => saveCompaniesLoop stop upsertRes rest (i + 1) (acc ++ [(c.company_name, cid)])
      | none => saveCompaniesLoop stop upsertRes rest (i + 1) acc

/-- Embeds `save_companies_to_db`: per company, wait if paused and check the
stop flag (both before the inner try, so `InterruptedError` propagates), then
upsert — a falsy id or an upsert exception is logged and skipped (the inner
try), so only the stop check can abort the loop. -/
def save_companies_to_db (stop : Bool) (upsertRes : Nat → Option Nat)
    (cos : List ScrapedCompany) : Except String (List (String × Nat)) :=
  saveCompaniesLoop stop upsertRes cos 0 []

def saveJobsLoop (stop : Bool) (saveRes : Nat → JobSaveRes) :
    List ValidatedJobData → Nat → SaveStats → Except String SaveStats
  | [], _, st => .ok st
  | _ :: rest, i, st =>
    match check_should_stop stop with
    | .error e => .error e
    | .ok _ =>
      match saveRes i with
      | .saved => saveJobsLoop stop saveRes rest (i + 1) { st with saved := st.saved + 1 }
      | .dup => saveJobsLoop stop saveRes rest (i + 1) { st with skipped := st.skipped + 1 }
      | .failedErr => saveJobsLoop stop saveRes rest (i + 1) { st with failed := st.failed + 1 }

/-- Embeds `save_jobs_to_db`: per job, the stop check precedes the inner try;
an insert returning an id counts saved, a `None` counts skipped (duplicate),
an insert exception is caught and counts failed. -/
def save_jobs_to_db (stop : Bool) (saveRes : Nat → JobSaveRes)
    (jobs : List ValidatedJobData) : Except String SaveStats :=
  saveJobsLoop stop saveRes jobs 0 ⟨0, 0, 0⟩

structure CompleteEnv where
  applyFiltersResult : Except String Nat
  scrapeResult : Except String (List ValidatedJobData × List ScrapedCompany)
  companyUpsertRes : Nat → Option Nat
  jobSaveRes : Nat → JobSaveRes

/-- Outcome of the workflow method `scrape_jobs` as `complete_search` sees
it: a zero found-count short-circuits to empty lists without consulting the
scraper; otherwise the call either returns the pair its signature annotates
or raises, and the orchestrator model takes that outcome as the parameter
`env.scrapeResult`.  What the nonzero branch actually produces in the
current source is pinned down separately by `workflow_scrape_jobs_src`
below: it always raises, so only the `.error` outcomes are realized. -/
def scrape_jobs (env : CompleteEnv) (jobs_found : Nat) :
    Except String (List ValidatedJobData × List ScrapedCompany) :=
  if jobs_found = 0 then .ok ([], []) else env.scrapeResult

/-- Statistics dictionary returned by `complete_search` / `run`. -/
structure WStats where
  jobs_found : Nat
  jobs_scraped : Nat
  jobs_saved : Nat
  jobs_skipped : Nat
  session_id : Nat
deriving Repr, DecidableEq

structure CompleteOut where
  result : Except String (WStats × List ValidatedJobData × List ScrapedCompany)
  finalSession : Option SearchSession
  effects : List String

def noActiveSessionMsg : String :=
  "No active session. Call start_search() first to initialize the workflow."

/-- Phases 2-4 of `complete_search` after the found-count guard (the body of
its try block, continuation-passing the except clause as `mark_failed` plus
returning the partial stats accumulated in the mutable dict so far). -/
def afterFilters (stop : Bool) (env : CompleteEnv) (s : SearchSession)
    (stats : WStats) (eff : List String) : CompleteOut :=
  match scrape_jobs env stats.jobs_found with
  | .error e =>
    ⟨.ok (stats, [], []), some (s.mark_failed e), eff ++ ["scrape", "update_session"]⟩
  | .ok (jobs, cos) =>
    let stats2 := { stats with jobs_scraped := jobs.length }
    match save_companies_to_db stop env.companyUpsertRes cos with
    | .error e =>
      ⟨.ok (stats2, jobs, cos), some (s.mark_failed e),
       eff ++ ["scrape", "save_companies", "update_session"]⟩
    | .ok _ =>
      match save_jobs_to_db stop env.jobSaveRes jobs with
      | .error e =>
        ⟨.ok (stats2, jobs, cos), some (s.mark_failed e),
         eff ++ ["scrape", "save_companies", "save_jobs", "update_session"]⟩
      | .ok sstats =>
        let stats3 := { stats2 with jobs_saved := sstats.saved
                                    jobs_skipped := sstats.skipped }
        ⟨.ok (stats3, jobs, cos),
         some (s.mark_completed stats3.jobs_scraped stats3.jobs_saved stats3.jobs_skipped),
         eff ++ ["scrape", "save_companies", "save_jobs", "update_session"]⟩

/-- Try-block body of `complete_search`: optional filter application (with
its two session updates), then scrape and persist. -/
def completeSearchBody (stop : Bool) (env : CompleteEnv) (s : SearchSession)
    (stats0 : WStats) (advFilters : Bool) : CompleteOut :=
  if advFilters then
    match env.applyFiltersResult with
    | .error e =>
      ⟨.ok (stats0, [], []), some (s.mark_failed e),
       ["update_session", "apply_filters", "update_session"]⟩
    | .ok n =>
      afterFilters stop env { s with jobs_found := n } { stats0 with jobs_found := n }
        ["update_session", "apply_filters", "update_session"]
  else afterFilters stop env s stats0 []

/-- Embeds `JobSearchWorkflow.complete_search`: the session guard raises
`RuntimeError` before the try block (nothing is performed); a zero
found-count returns the zero stats without finalizing the session; the try
block catches every exception, marks the session failed with `str(e)` and
still returns the partial stats tuple. -/
def complete_search (stop : Bool) (env : CompleteEnv)
    (sess : Option SearchSession) (advFilters : Bool) : CompleteOut :=
  match sess with
  | none => ⟨.error noActiveSessionMsg, none, []⟩
  | some s =>
    match s.id with
    | none => ⟨.error noActiveSessionMsg, some s, []⟩
    | some sid =>
      let stats0 : WStats := ⟨s.jobs_found, 0, 0, 0, sid⟩
      if s.jobs_found = 0 then ⟨.ok (stats0, [], []), some s, []⟩
      else completeSearchBody stop env s stats0 advFilters

/-- First exception raised inside `complete_search`'s try block, if any, in
the body's step order — the specification of "an exception occurred during
phase 2". -/
def afterFiltersError (stop : Bool) (env : CompleteEnv) (n : Nat) : Option String :=
  match scrape_jobs env n with
  | .error e => some e
  | .ok (jobs, cos) =>
    match save_companies_to_db stop env.companyUpsertRes cos with
    | .error e => some e
    | .ok _ =>
      match save_jobs_to_db stop env.jobSaveRes jobs with
      | .error e => some e
      | .ok _ => none

def firstBodyError (stop : Bool) (env : CompleteEnv) (s : SearchSession)
    (advFilters : Bool) : Option String :=
  if s.jobs_found = 0 then none
  else if advFilters then
    match env.applyFiltersResult with
    | .error e => some e
    | .ok n => afterFiltersError stop env n
  else afterFiltersError stop env s.jobs_found

structure StartEnv where
  insertSessionResult : Option Nat
  fillSearchFormResult : Except String Nat

structure StartOut where
  result : Except String (Nat × Nat)
  finalSession : Option SearchSession

/-- Embeds `JobSearchWorkflow.start_search`: build the in-progress session;
a failed repository insert returns the zero dict (no exception); then
`fill_search_form` — which has no surrounding try, so an exception there
propagates with the session left `in_progress` — and on a zero found-count
the session is immediately completed with zero counters. -/
def start_search (env : StartEnv) : StartOut :=
  let s0 := SearchSession.new
  match env.insertSessionResult with
  | none => ⟨.ok (0, 0), some s0⟩
  | some sid =>
    let s1 := { s0 with id := some sid }
    match env.fillSearchFormResult with
    | .error e => ⟨.error e, some s1⟩
    | .ok n =>
      let s2 := { s1 with jobs_found := n }
      if n = 0 then ⟨.ok (0, sid), some (s2.mark_completed 0 0 0)⟩
      else ⟨.ok (n, sid), some s2⟩

structure RunEnv where
  startEnv : StartEnv
  completeEnv : CompleteEnv

/-- Embeds `JobSearchWorkflow.run`: phase 1, early return with the zero
stats when nothing was found, otherwise phase 2.  An exception from
`start_search` propagates (`run` has no handler of its own). -/
def runWorkflow (stop : Bool) (env : RunEnv) (advFilters : Bool) : CompleteOut :=
  match start_search env.startEnv with
  | ⟨.error e, sess⟩ => ⟨.error e, sess, []⟩
  | ⟨.ok (n, sid), sess⟩ =>
    if n = 0 then ⟨.ok (⟨0, 0, 0, 0, sid⟩, [], []), sess, []⟩
    else complete_search stop env.completeEnv sess advFilters

/-- Concrete collaborator outcomes for witnesses: everything succeeds
trivially. -/
def trivialCompleteEnv : CompleteEnv :=
  { applyFiltersResult := .ok 0, scrapeResult := .ok ([], [])
    companyUpsertRes := fun _ => none, jobSaveRes := fun _ => .dup }

/-- Concrete run whose phase-1 search raises after the session row exists. -/
def failingStartEnv : StartEnv :=
  { insertSessionResult := some 1
    fillSearchFormResult :=
      .error "NoSuchElementException: Could not find the dropdown element to open filters" }

def failingRunEnv : RunEnv :=
  { startEnv := failingStartEnv, completeEnv := trivialCompleteEnv }

/-- Concrete run that discovers zero items. -/
def zeroFoundRunEnv : RunEnv :=
  { startEnv := { insertSessionResult := some 1, fillSearchFormResult := .ok 0 }
    completeEnv := trivialCompleteEnv }

/-- Concrete phase-2 environment whose scrape step raises. -/
def scrapeFailEnv : CompleteEnv :=
  { applyFiltersResult := .ok 0
    scrapeResult := .error "TimeoutException: page load timed out"
    companyUpsertRes := fun _ => none, jobSaveRes := fun _ => .dup }

/-! ## The scrape step as the current source executes it

`JobSearchWorkflow.scrape_jobs` annotates its return as
`tuple[List[ScrapedJobData], List[ScrapedCompanyFromJobPosting]]` and runs
`scraped_jobs, scraped_companies = self.scraper.search_jobs(...)`, but
`GlassdoorScraper.search_jobs` returns a single `list[ScrapedJobData]` — a
two-target unpacking of that list.  The scraper also swallows
`InterruptedError` itself: `fill_search_form` catches it and returns 0
found, and the extraction loop of `search_jobs` catches it and breaks,
returning the partial list accumulated so far. -/

/-- Embeds the stop path of `GlassdoorScraper.fill_search_form`: the stop
check raises `InterruptedError`, which the method's own handler catches,
returning 0 jobs found. -/
def scraper_fill_search_form (stop : Bool) (found : Nat) : Nat :=
  if stop then 0 else found

/-- Embeds `GlassdoorScraper.search_jobs`: a SINGLE list of scraped items;
the stop check at the head of each extraction iteration raises
`InterruptedError`, which the loop's own handler catches and breaks on,
returning the partial list accumulated before the stop — the empty list when
the stop flag is already set on entry. -/
def scraper_search_jobs (stop : Bool) (items : List ValidatedJobData) :
    List ValidatedJobData :=
  if stop then [] else items

/-- Python two-target iterable unpacking `a, b = lst`: succeeds only on a
list of length exactly two, otherwise raises `ValueError`. -/
def pyUnpack2 : List ValidatedJobData →
    Except String (ValidatedJobData × ValidatedJobData)
  | [a, b] => .ok (a, b)
  | [] => .error "ValueError: not enough values to unpack (expected 2, got 0)"
  | [_] => .error "ValueError: not enough values to unpack (expected 2, got 1)"
  | _ => .error "ValueError: too many values to unpack (expected 2)"

/-- Embeds the workflow method `scrape_jobs` exactly as the current source
executes it for a given stop flag and scraper item list: zero found returns
the empty pair; otherwise the scraper's single list is unpacked into the two
annotated variables — `ValueError` unless it has exactly two elements, and
in that case the next statement, `len(scraped_jobs)` on a `ScrapedJobData`,
raises `TypeError`.  No execution reaches the annotated successful pair. -/
def workflow_scrape_jobs_src (stop : Bool) (found : Nat)
    (items : List ValidatedJobData) :
    Except String (List ValidatedJobData × List ScrapedCompany) :=
  if found = 0 then .ok ([], [])
  else
    match pyUnpack2 (scraper_search_jobs stop items) with
    | .error e => .error e
    | .ok _ => .error "TypeError: object of type ScrapedJobData has no len()"

/-- Phase-2 environment of a run stopped during extraction: the scrape step's
outcome is what the source actually produces there. -/
def stoppedScrapeEnv : CompleteEnv :=
  { applyFiltersResult := .ok 0
    scrapeResult := workflow_scrape_jobs_src true 5 []
    companyUpsertRes := fun _ => none, jobSaveRes := fun _ => .dup }

/-- A validated posting used as concrete scraped data. -/
def sampleValidatedJob : ValidatedJobData :=
  { job_title := "ML Engineer", company := "Google", location := "Paris"
    url := some "https://glassdoor.com/job/123", job_age := 0
    verified_skills := [], required_skills := [] }

/-- A persisted in-progress session with five discovered items. -/
def sessionWithJobs : SearchSession :=
  { SearchSession.new with id := some 3, jobs_found := 5 }

/-! # Theorems -/

section ControlTheorems

lemma waitIfPausedAux_preserves (flags : Nat → ScraperControl) (res : α) :
    ∀ fuel i j r, waitIfPausedAux flags res fuel i = some (j, r) → r = res := by
  intro fuel
  induction fuel with
  | zero => intro i j r h; simp [waitIfPausedAux] at h
  | succ n ih =>
    intro i j r h
    by_cases hb : (flags i).blocked
    · rw [waitIfPausedAux, if_pos hb] at h
      exact ih _ _ _ h
    · rw [waitIfPausedAux, if_neg hb] at h
      exact (Prod.mk.injEq _ _ _ _ ▸ Option.some.injEq _ _ ▸ h).2.symm

lemma waitIfPausedAux_exits (flags : Nat → ScraperControl) (res : α) :
    ∀ fuel i k, k < fuel → (flags (i + k)).blocked = false →
      ∃ j, j ≤ k ∧ waitIfPausedAux flags res fuel i = some (i + j, res) := by
  intro fuel
  induction fuel with
  | zero => intro i k hk; omega
  | succ n ih =>
    intro i k hk hunb
    by_cases hb : (flags i).blocked
    · have hk0 : k ≠ 0 := by
        intro h0
        rw [h0, Nat.add_zero] at hunb
        rw [hunb] at hb
        exact Bool.noConfusion hb
      obtain ⟨k', rfl⟩ := Nat.exists_eq_succ_of_ne_zero hk0
      have hunb' : (flags (i + 1 + k')).blocked = false := by
        rw [show i + 1 + k' = i + (k' + 1) by omega]
        exact hunb
      obtain ⟨j', hj', hres⟩ := ih (i + 1) k' (by omega) hunb'
      refine ⟨j' + 1, by omega, ?_⟩
      rw [waitIfPausedAux, if_pos hb, show i + (j' + 1) = i + 1 + j' by omega]
      exact hres
    · exact ⟨0, Nat.zero_le _, by rw [waitIfPausedAux, if_neg hb, Nat.add_zero]⟩

/-- C9: the pause-wait primitive blocks exactly while paused and not stopped.
(1) If at the first poll the control is not paused, or is stop-requested, the
call returns at once; (2) if the stop flag is observed at some poll `k` within
fuel, the loop terminates no later than poll `k` — a stop issued during an
active pause unblocks it; (3) whatever happens, the accumulated in-memory
results come back unchanged. -/
theorem wait_if_paused_spec (flags : Nat → ScraperControl) (fuel : Nat) (res : α) :
    (((flags 0).is_paused = false ∨ (flags 0).is_stopped = true) →
      wait_if_paused flags (fuel + 1) res = some (0, res)) ∧
    (∀ k, k < fuel → (flags k).is_stopped = true →
      ∃ j, j ≤ k ∧ wait_if_paused flags fuel res = some (j, res)) ∧
    (∀ j r, wait_if_paused flags fuel res = some (j, r) → r = res) := by
  refine ⟨?_, ?_, ?_⟩
  · intro h
    have hb : (flags 0).blocked = false := by
      rcases h with h | h <;>
        simp [ScraperControl.blocked, ScraperControl.is_paused,
          ScraperControl.is_stopped] at * <;>
        simp [h]
    rw [wait_if_paused, waitIfPausedAux, if_neg (by simp [hb])]
  · intro k hk hstop
    have hb : (flags (0 + k)).blocked = false := by
      simp only [Nat.zero_add]
      simp [ScraperControl.blocked, ScraperControl.is_stopped] at *
      simp [hstop]
    obtain ⟨j, hj, hres⟩ := waitIfPausedAux_exits flags res fuel 0 k hk hb
    exact ⟨j, hj, by simpa using hres⟩
  · intro j r h
    exact waitIfPausedAux_preserves flags res fuel 0 j r h

/-- C9 witness: with the control not paused the call returns at poll 0;
with a pause in force and a stop arriving at poll 2 it returns by poll 2;
the accumulated results (`42`, `7`) are returned untouched. -/
theorem wait_if_paused_spec_witness :
    wait_if_paused runningFlags 3 (42 : Nat) = some (0, 42) ∧
    ∃ j, j ≤ 2 ∧ wait_if_paused pausedThenStopped 5 (7 : Nat) = some (j, 7) :=
  ⟨(wait_if_paused_spec runningFlags 2 42).1 (Or.inl (by decide)),
   (wait_if_paused_spec pausedThenStopped 5 7).2.1 2 (by decide) (by decide)⟩

end ControlTheorems

section SessionTheorems

/-- C4 counterexample: the terminal transitions are not guarded.  Calling
`mark_failed` on a session already `completed` changes both its status and its
error message, contradicting the claim that a terminal session is left
unchanged by a second terminal transition. -/
theorem terminal_transition_not_guarded_cex :
    ((SearchSession.new.mark_completed 5 3 2).mark_failed "boom").status ≠
      (SearchSession.new.mark_completed 5 3 2).status ∧
    ((SearchSession.new.mark_completed 5 3 2).mark_failed "boom").error_message ≠
      (SearchSession.new.mark_completed 5 3 2).error_message ∧
    ((SearchSession.new.mark_failed "down").mark_completed 9 8 1).status ≠
      (SearchSession.new.mark_failed "down").status := by
  decide

/-- C4 amended: `mark_completed` and `mark_failed` are unconditional — each
sets its fields regardless of the session's current status, so a terminal
transition applied to an already-terminal session overwrites the previous
terminal state (status, counters or error message) instead of being ignored. -/
theorem terminal_transitions_unconditional (s : SearchSession)
    (a b c : Nat) (m : String) :
    (s.mark_completed a b c).status = "completed" ∧
    (s.mark_completed a b c).jobs_scraped = a ∧
    (s.mark_completed a b c).jobs_saved = b ∧
    (s.mark_completed a b c).jobs_skipped = c ∧
    (s.mark_completed a b c).error_message = s.error_message ∧
    (s.mark_failed m).status = "failed" ∧
    (s.mark_failed m).error_message = some m ∧
    (s.mark_failed m).jobs_scraped = s.jobs_scraped ∧
    (s.mark_failed m).jobs_saved = s.jobs_saved ∧
    (s.mark_failed m).jobs_skipped = s.jobs_skipped := by
  simp [SearchSession.mark_completed, SearchSession.mark_failed]

end SessionTheorems

section HashTheorems

lemma toHex16Aux_length : ∀ w n acc, (toHex16Aux w n acc).length = w + acc.length := by
  intro w
  induction w with
  | zero => intro n acc; simp [toHex16Aux]
  | succ k ih =>
    intro n acc
    rw [toHex16Aux, ih]
    simp
    omega

lemma toHex16_length (n : Nat) : (toHex16 n).length = 16 := by
  simp [toHex16, String.length, toHex16Aux_length]

/-- C2: the identity hash is pure and deterministic.  It always yields a
16-character token; it ignores the transport URL; two candidates with the
same source and external identifier hash identically; and two candidates
without external identifiers whose title, organization, location and source
agree up to case and whitespace hash identically. -/
theorem generate_hash_pure_deterministic (c1 c2 : JobCandidate) :
    (generate_hash c1).length = 16 ∧
    (∀ u, generate_hash { c1 with url := u } = generate_hash c1) ∧
    (∀ e, c1.job_external_id = some e → c2.job_external_id = some e →
      c1.source = c2.source → generate_hash c1 = generate_hash c2) ∧
    (c1.job_external_id = none → c2.job_external_id = none →
      normalizeField c1.title = normalizeField c2.title →
      normalizeField c1.company = normalizeField c2.company →
      normalizeField c1.location = normalizeField c2.location →
      normalizeField c1.source = normalizeField c2.source →
      generate_hash c1 = generate_hash c2) := by
  refine ⟨toHex16_length _, ?_, ?_, ?_⟩
  · intro u
    cases c1
    rfl
  · intro e h1 h2 hs
    simp only [generate_hash, hashInput, h1, h2, hs]
  · intro h1 h2 ht hc hl hs
    simp only [generate_hash, hashInput, h1, h2, ht, hc, hl, hs]

/-- C2 witness: spec scenario 2 — `"  ml  engineer  "` at `" GOOGLE "` hashes
identically to `"ML Engineer"` at `"Google"` despite different URLs. -/
theorem generate_hash_pure_deterministic_witness :
    generate_hash mlEngineerRaw = generate_hash mlEngineerClean :=
  (generate_hash_pure_deterministic mlEngineerRaw mlEngineerClean).2.2.2
    rfl rfl (by decide) (by decide) (by decide) (by decide)

end HashTheorems

section ValidationTheorems

lemma exceptBind_ok {α β : Type} {x : Except String α} {f : α → Except String β}
    {b : β} (h : x >>= f = .ok b) : ∃ a, x = .ok a ∧ f a = .ok b := by
  cases x with
  | error e => simp [Bind.bind, Except.bind] at h
  | ok a => exact ⟨a, rfl, by simpa [Bind.bind, Except.bind] using h⟩

/-- C8 counterexample: a raw map whose title is a single space passes
validation — the `min_length=1` check sees the untrimmed value — and the
resulting validated record carries the empty title, contradicting the claim
that a whitespace-only required field is rejected. -/
theorem whitespace_title_accepted_cex :
    ∃ v, scrapedJobDataValidate whitespaceTitleRaw = .ok v ∧ v.job_title = "" := by
  refine ⟨{ job_title := "", company := "Google", location := "Paris"
            url := some "https://glassdoor.com/job/1", job_age := 0
            verified_skills := [], required_skills := [] }, ?_, rfl⟩
  rfl

/-- C8 amended: a missing or empty-string required field is rejected, and the
rejection surfaces as a recoverable `None` from `extract_and_validate_job`
rather than an exception; but acceptance only guarantees that the raw value
was non-empty before trimming — the stored value is the trimmed string, which
is empty when the raw value was whitespace-only. -/
theorem required_field_validation_amended (r : RawJobData) :
    ((r.job_title = none ∨ r.job_title = some "") →
      (∃ e, scrapedJobDataValidate r = .error e) ∧
        extract_and_validate_job r = none) ∧
    (∀ s v, r.job_title = some s → scrapedJobDataValidate r = .ok v →
      s ≠ "" ∧ v.job_title = pyStrip s) := by
  constructor
  · intro h
    have herr : ∃ e, scrapedJobDataValidate r = .error e := by
      rcases h with h | h
      · exact ⟨"job_title: Field required", by
          simp [scrapedJobDataValidate, validateRequired, h, Bind.bind, Except.bind]⟩
      · exact ⟨"job_title: String should have at least 1 character", by
          simp [scrapedJobDataValidate, validateRequired, h, Bind.bind, Except.bind]⟩
    obtain ⟨e, he⟩ := herr
    exact ⟨⟨e, he⟩, by simp [extract_and_validate_job, he]⟩
  · intro s v hs hok
    simp only [scrapedJobDataValidate, hs] at hok
    obtain ⟨t, ht, hok⟩ := exceptBind_ok hok
    have hparse : ¬ s.length < 1 ∧ t = pyStrip s := by
      simp only [validateRequired] at ht
      by_cases hlt : s.length < 1
      · rw [if_pos hlt] at ht
        exact absurd ht (by simp)
      · rw [if_neg hlt] at ht
        injection ht with h
        exact ⟨hlt, h.symm⟩
    refine ⟨?_, ?_⟩
    · intro h0
      subst h0
      exact hparse.1 (by simp)
    · obtain ⟨c, hc, hok⟩ := exceptBind_ok hok
      obtain ⟨l, hl, hok⟩ := exceptBind_ok hok
      obtain ⟨w, hw, hok⟩ := exceptBind_ok hok
      obtain ⟨u, hu, hok⟩ := exceptBind_ok hok
      have hv : v = { job_title := t, company := c, location := l, url := u
                      job_age := r.job_age
                      verified_skills := cleanSkills r.verified_skills
                      required_skills := cleanSkills r.required_skills } := by
        simpa [Pure.pure, Except.pure] using hok.symm
      rw [hv, hparse.2]

/-- C8 amended witness: a missing title is rejected and surfaced as `None`;
the single-space title is accepted with the empty trimmed value. -/
theorem required_field_validation_amended_witness :
    ((∃ e, scrapedJobDataValidate missingTitleRaw = .error e) ∧
      extract_and_validate_job missingTitleRaw = none) ∧
    (" " ≠ "" ∧
      ({ job_title := "", company := "Google", location := "Paris"
         url := some "https://glassdoor.com/job/1", job_age := 0
         verified_skills := [], required_skills := [] } : ValidatedJobData).job_title =
        pyStrip " ") :=
  ⟨(required_field_validation_amended missingTitleRaw).1 (Or.inl rfl),
   (required_field_validation_amended whitespaceTitleRaw).2 " " _ rfl rfl⟩

end ValidationTheorems

section InsertTheorems

/-- C1 (code bug): `JobRepository.insert` can never store a posting in the
current codebase.  The INSERT parameter tuple reads `job.company_size`, which
is not an attribute of the `Job` model, so every call raises
`AttributeError` (re-raised by the blanket handler) — the first insert
already fails, including on spec scenario 1's candidate `GD-12345`.
Independently, the INSERT column list omits `job_hash`, which `SCHEMA_JOBS`
declares NOT NULL (UNIQUE) without default, so even with the legacy
attributes present the first insert would die as `IntegrityError` and be
reported as a duplicate (`None`). -/
theorem job_insert_first_insert_fails :
    ("company_size" ∈ insertAccessedAttrs ∧ "company_size" ∉ jobModelAttrs) ∧
    ("job_hash" ∈ jobsNotNullNoDefault ∧ "job_hash" ∉ insertColumns) ∧
    (∀ db job, JobRepository_insert db job = .raised "AttributeError") ∧
    JobRepository_insert [] jobGD12345 = .raised "AttributeError" := by
  have hres : jobInsertAttrsResolve = false := by decide
  refine ⟨⟨by decide, by decide⟩, ⟨by decide, by decide⟩, ?_, ?_⟩
  · intro db job
    simp [JobRepository_insert, hres]
  · simp [JobRepository_insert, hres]

end InsertTheorems

section MergeTheorems

lemma find?_append_some {α : Type} {p : α → Bool} {l₁ l₂ : List α} {a : α}
    (h : l₁.find? p = some a) : (l₁ ++ l₂).find? p = some a := by
  induction l₁ with
  | nil => simp [List.find?] at h
  | cons x xs ih =>
    by_cases hx : p x
    · rw [List.find?_cons_of_pos _ hx] at h
      rw [List.cons_append, List.find?_cons_of_pos _ hx]
      exact h
    · rw [List.find?_cons_of_neg _ hx] at h
      rw [List.cons_append, List.find?_cons_of_neg _ hx]
      exact ih h

lemma find?_append_none {α : Type} {p : α → Bool} {l₁ : List α} (l₂ : List α)
    (h : l₁.find? p = none) : (l₁ ++ l₂).find? p = l₂.find? p := by
  induction l₁ with
  | nil => simp
  | cons x xs ih =>
    by_cases hx : p x
    · rw [List.find?_cons_of_pos _ hx] at h
      exact Option.noConfusion h
    · rw [List.find?_cons_of_neg _ hx] at h
      rw [List.cons_append, List.find?_cons_of_neg _ hx]
      exact ih h

lemma dlookup_none_iff_find?_none {d : JsonDict} {k : String} :
    dlookup d k = none ↔ d.find? (fun kv => kv.1 == k) = none := by
  unfold dlookup
  cases d.find? (fun kv => kv.1 == k) <;> simp

lemma dlookup_cons (kv : String × String) (d : JsonDict) (k : String) :
    dlookup (kv :: d) k = if kv.1 == k then some kv.2 else dlookup d k := by
  by_cases hk : (kv.1 == k : Bool)
  · rw [dlookup, @List.find?_cons_of_pos _ (fun kv => kv.1 == k) kv d hk, if_pos hk]
    rfl
  · rw [dlookup, @List.find?_cons_of_neg _ (fun kv => kv.1 == k) kv d hk, if_neg hk]
    rfl

lemma dlookup_filter_of_none {a : JsonDict} {k : String} (b : JsonDict)
    (h : dlookup a k = none) :
    dlookup (b.filter (fun kv => (dlookup a kv.1).isNone)) k = dlookup b k := by
  induction b with
  | nil => rfl
  | cons kv rest ih =>
    rw [List.filter_cons]
    by_cases hk : (kv.1 == k : Bool)
    · have hkk : kv.1 = k := by simpa using hk
      have hcond : ((dlookup a kv.1).isNone : Bool) := by rw [hkk, h]; rfl
      rw [if_pos hcond, dlookup_cons, if_pos hk, dlookup_cons, if_pos hk]
    · by_cases hq : ((dlookup a kv.1).isNone : Bool)
      · rw [if_pos hq, dlookup_cons, if_neg hk, dlookup_cons, if_neg hk]
        exact ih
      · rw [if_neg hq, dlookup_cons, if_neg hk]
        exact ih

lemma dlookup_dictUnion (a b : JsonDict) (k : String) :
    dlookup (dictUnion a b) k = optFirst (dlookup a k) (dlookup b k) := by
  cases ha : dlookup a k with
  | some v =>
    unfold dictUnion
    obtain ⟨kv, hkv, hv⟩ : ∃ kv, a.find? (fun kv => kv.1 == k) = some kv ∧ kv.2 = v := by
      unfold dlookup at ha
      cases hf : a.find? (fun kv => kv.1 == k) with
      | none => rw [hf] at ha; exact Option.noConfusion ha
      | some kv => rw [hf] at ha; exact ⟨kv, rfl, by simpa using ha⟩
    have : dlookup (a ++ b.filter (fun kv => (dlookup a kv.1).isNone)) k = some v := by
      unfold dlookup
      rw [find?_append_some hkv]
      simp [hv]
    rw [this]
    rfl
  | none =>
    unfold dictUnion dlookup
    rw [find?_append_none _ (dlookup_none_iff_find?_none.mp ha)]
    have := dlookup_filter_of_none (a := a) (k := k) b ha
    unfold dlookup at this
    rw [this]
    rfl

lemma find?_replaceFirst {p : Company → Bool} {x e : Company} {db : List Company}
    (hf : db.find? p = some e) (hx : p x = true) :
    (replaceFirst p x db).find? p = some x := by
  induction db with
  | nil => simp [List.find?] at hf
  | cons c cs ih =>
    by_cases hc : p c
    · rw [replaceFirst, if_pos hc]
      rw [List.find?_cons_of_pos _ hx]
    · rw [replaceFirst, if_neg hc]
      rw [List.find?_cons_of_neg _ hc] at hf
      rw [List.find?_cons_of_neg _ hc]
      exact ih hf

lemma mergeCompanies_upgrade {e inc : Company}
    (he : e.page_source = "job_posting")
    (hi : inc.page_source = "company_profile") :
    mergeCompanies e inc = mergeUpgradeFromProfile e inc := by
  rw [mergeCompanies, if_pos ⟨he, hi⟩]

/-- C3: a partial-from-posting organization later observed as
full-from-profile is merge-upgraded.  The resolver decides `MergeUpgrade`;
the record stored under the same case-insensitive name afterwards has
provenance merged, keeps its name, carries every incoming
overview/evaluation field, keeps every previously populated field, and
adopts the incoming profile reference when the existing one was absent. -/
theorem organization_merge_upgrade (db : List Company) (e inc : Company)
    (hfind : db.find? (nameMatches inc) = some e)
    (he : e.page_source = "job_posting")
    (hi : inc.page_source = "company_profile") :
    resolve (some e) inc = .MergeUpgrade ∧
    (CompanyRepository_upsert db inc).find? (nameMatches inc) =
      some (mergeCompanies e inc) ∧
    (mergeCompanies e inc).page_source = "merged" ∧
    (mergeCompanies e inc).name = e.name ∧
    (∀ k v, dlookup inc.overview k = some v →
      dlookup (mergeCompanies e inc).overview k = some v) ∧
    (∀ k, (dlookup e.overview k).isSome →
      (dlookup (mergeCompanies e inc).overview k).isSome) ∧
    (∀ k v, dlookup inc.evaluations k = some v →
      dlookup (mergeCompanies e inc).evaluations k = some v) ∧
    (∀ k, (dlookup e.evaluations k).isSome →
      (dlookup (mergeCompanies e inc).evaluations k).isSome) ∧
    (e.profile_url = none → (mergeCompanies e inc).profile_url = inc.profile_url) := by
  have hres : resolve (some e) inc = .MergeUpgrade := by
    have h1 : ¬ e.page_source = inc.page_source := by
      rw [he, hi]
      decide
    simp only [resolve]
    rw [if_neg h1, if_pos ⟨he, hi⟩]
  have hmerge := mergeCompanies_upgrade he hi
  have hname : (mergeCompanies e inc).name = e.name := by rw [hmerge]; rfl
  refine ⟨hres, ?_, ?_, hname, ?_, ?_, ?_, ?_, ?_⟩
  · have hpe : nameMatches inc e = true := List.find?_some hfind
    have hpm : nameMatches inc (mergeCompanies e inc) = true := by
      unfold nameMatches at hpe ⊢
      rw [hname]
      exact hpe
    simp only [CompanyRepository_upsert, hfind, hres]
    exact find?_replaceFirst hfind hpm
  · rw [hmerge]; rfl
  · intro k v h
    rw [hmerge]
    show dlookup (dictUnion inc.overview e.overview) k = some v
    rw [dlookup_dictUnion, h]
    rfl
  · intro k h
    rw [hmerge]
    show (dlookup (dictUnion inc.overview e.overview) k).isSome
    rw [dlookup_dictUnion]
    cases h2 : dlookup inc.overview k <;> simp [optFirst, h2] <;> simpa using h
  · intro k v h
    rw [hmerge]
    show dlookup (dictUnion inc.evaluations e.evaluations) k = some v
    rw [dlookup_dictUnion, h]
    rfl
  · intro k h
    rw [hmerge]
    show (dlookup (dictUnion inc.evaluations e.evaluations) k).isSome
    rw [dlookup_dictUnion]
    cases h2 : dlookup inc.evaluations k <;> simp [optFirst, h2] <;> simpa using h
  · intro h
    rw [hmerge]
    show optFirst e.profile_url inc.profile_url = inc.profile_url
    rw [h]
    rfl

/-- C3 witness: spec scenario 3 / the integration test — Acme Corp seen from
a posting with size only, then from its profile; the stored record becomes
merged, keeps the size, gains the industry, and adopts the profile URL. -/
theorem organization_merge_upgrade_witness :
    (CompanyRepository_upsert [acmeFromPosting] acmeFromProfile).find?
        (nameMatches acmeFromProfile) =
      some (mergeCompanies acmeFromPosting acmeFromProfile) ∧
    (mergeCompanies acmeFromPosting acmeFromProfile).page_source = "merged" ∧
    dlookup (mergeCompanies acmeFromPosting acmeFromProfile).overview "size" =
      some "500-1000" ∧
    dlookup (mergeCompanies acmeFromPosting acmeFromProfile).overview "industry" =
      some "Technology" ∧
    (mergeCompanies acmeFromPosting acmeFromProfile).profile_url =
      some "https://glassdoor.com/acme" := by
  have h := organization_merge_upgrade [acmeFromPosting] acmeFromPosting
    acmeFromProfile (by decide) rfl rfl
  refine ⟨h.2.1, h.2.2.1, ?_, ?_, ?_⟩
  · exact h.2.2.2.2.1 "size" "500-1000" (by decide)
  · exact h.2.2.2.2.1 "industry" "Technology" (by decide)
  · rw [h.2.2.2.2.2.2.2.2 rfl]
    rfl

end MergeTheorems

section WorkflowTheorems

/-- C10: calling `complete_search` with no active session — none at all, or
one that was never persisted (no id) — raises `RuntimeError` before any
filtering, scraping or persistence: the result is the error, the session is
untouched and no effect was performed. -/
theorem complete_search_requires_session (stop : Bool) (env : CompleteEnv)
    (sess : Option SearchSession) (advF : Bool)
    (h : sess = none ∨ ∃ s, sess = some s ∧ s.id = none) :
    (complete_search stop env sess advF).result = .error noActiveSessionMsg ∧
    (complete_search stop env sess advF).finalSession = sess ∧
    (complete_search stop env sess advF).effects = [] := by
  rcases h with rfl | ⟨s, rfl, hid⟩
  · exact ⟨rfl, rfl, rfl⟩
  · simp [complete_search, hid]

/-- C10 witness: a fresh, never-persisted session makes `complete_search`
raise with nothing performed. -/
theorem complete_search_requires_session_witness :
    (complete_search false trivialCompleteEnv (some SearchSession.new) false).result
        = .error noActiveSessionMsg ∧
    (complete_search false trivialCompleteEnv (some SearchSession.new) false).finalSession
        = some SearchSession.new ∧
    (complete_search false trivialCompleteEnv (some SearchSession.new) false).effects = [] :=
  complete_search_requires_session false trivialCompleteEnv (some SearchSession.new) false
    (Or.inr ⟨SearchSession.new, rfl, rfl⟩)

/-- C5 counterexample: an exception raised after the session row was created
but still inside phase 1 (here `ExtraFilters.__init__` failing during
`fill_search_form`) propagates out of the run uncaught, with the session left
`in_progress` and never marked failed — contradicting the claim that every
exception after session creation is converted into a fail transition. -/
theorem run_exception_propagates_cex :
    (runWorkflow false failingRunEnv false).result =
      .error "NoSuchElementException: Could not find the dropdown element to open filters" ∧
    ∃ s', (runWorkflow false failingRunEnv false).finalSession = some s' ∧
      s'.status = "in_progress" ∧ s'.error_message = none :=
  ⟨rfl, ⟨{ SearchSession.new with id := some 1 }, rfl, rfl, rfl⟩⟩

lemma afterFilters_scrape_error {stop : Bool} {env : CompleteEnv} {s : SearchSession}
    {stats : WStats} {eff : List String} {e : String}
    (hs : scrape_jobs env stats.jobs_found = .error e) :
    afterFilters stop env s stats eff =
      ⟨.ok (stats, [], []), some (s.mark_failed e),
       eff ++ ["scrape", "update_session"]⟩ := by
  unfold afterFilters
  rw [hs]

lemma afterFilters_companies_error {stop : Bool} {env : CompleteEnv}
    {s : SearchSession} {stats : WStats} {eff : List String}
    {jobs : List ValidatedJobData} {cos : List ScrapedCompany} {e : String}
    (hs : scrape_jobs env stats.jobs_found = .ok (jobs, cos))
    (hc : save_companies_to_db stop env.companyUpsertRes cos = .error e) :
    afterFilters stop env s stats eff =
      ⟨.ok ({ stats with jobs_scraped := jobs.length }, jobs, cos),
       some (s.mark_failed e),
       eff ++ ["scrape", "save_companies", "update_session"]⟩ := by
  unfold afterFilters
  rw [hs]
  dsimp only
  rw [hc]

lemma afterFilters_jobs_error {stop : Bool} {env : CompleteEnv}
    {s : SearchSession} {stats : WStats} {eff : List String}
    {jobs : List ValidatedJobData} {cos : List ScrapedCompany}
    {cmap : List (String × Nat)} {e : String}
    (hs : scrape_jobs env stats.jobs_found = .ok (jobs, cos))
    (hc : save_companies_to_db stop env.companyUpsertRes cos = .ok cmap)
    (hj : save_jobs_to_db stop env.jobSaveRes jobs = .error e) :
    afterFilters stop env s stats eff =
      ⟨.ok ({ stats with jobs_scraped := jobs.length }, jobs, cos),
       some (s.mark_failed e),
       eff ++ ["scrape", "save_companies", "save_jobs", "update_session"]⟩ := by
  unfold afterFilters
  rw [hs]
  dsimp only
  rw [hc]
  dsimp only
  rw [hj]

lemma afterFilters_success {stop : Bool} {env : CompleteEnv}
    {s : SearchSession} {stats : WStats} {eff : List String}
    {jobs : List ValidatedJobData} {cos : List ScrapedCompany}
    {cmap : List (String × Nat)} {sstats : SaveStats}
    (hs : scrape_jobs env stats.jobs_found = .ok (jobs, cos))
    (hc : save_companies_to_db stop env.companyUpsertRes cos = .ok cmap)
    (hj : save_jobs_to_db stop env.jobSaveRes jobs = .ok sstats) :
    afterFilters stop env s stats eff =
      ⟨.ok ({ stats with jobs_scraped := jobs.length, jobs_saved := sstats.saved
                         jobs_skipped := sstats.skipped }, jobs, cos),
       some (s.mark_completed jobs.length sstats.saved sstats.skipped),
       eff ++ ["scrape", "save_companies", "save_jobs", "update_session"]⟩ := by
  unfold afterFilters
  rw [hs]
  dsimp only
  rw [hc]
  dsimp only
  rw [hj]

lemma afterFilters_spec (stop : Bool) (env : CompleteEnv) (s : SearchSession)
    (stats : WStats) (eff : List String) :
    (∃ out, (afterFilters stop env s stats eff).result = .ok out) ∧
    (∀ e, afterFiltersError stop env stats.jobs_found = some e →
      (afterFilters stop env s stats eff).finalSession = some (s.mark_failed e)) := by
  cases hs : scrape_jobs env stats.jobs_found with
  | error e0 =>
    rw [afterFilters_scrape_error hs]
    refine ⟨⟨_, rfl⟩, ?_⟩
    intro e he
    rw [afterFiltersError, hs] at he
    obtain rfl : e0 = e := by simpa using he
    rfl
  | ok p =>
    obtain ⟨jobs, cos⟩ := p
    cases hc : save_companies_to_db stop env.companyUpsertRes cos with
    | error e0 =>
      rw [afterFilters_companies_error hs hc]
      refine ⟨⟨_, rfl⟩, ?_⟩
      intro e he
      rw [afterFiltersError, hs] at he
      dsimp only at he
      rw [hc] at he
      obtain rfl : e0 = e := by simpa using he
      rfl
    | ok cmap =>
      cases hj : save_jobs_to_db stop env.jobSaveRes jobs with
      | error e0 =>
        rw [afterFilters_jobs_error hs hc hj]
        refine ⟨⟨_, rfl⟩, ?_⟩
        intro e he
        rw [afterFiltersError, hs] at he
        dsimp only at he
        rw [hc] at he
        dsimp only at he
        rw [hj] at he
        obtain rfl : e0 = e := by simpa using he
        rfl
      | ok st =>
        rw [afterFilters_success hs hc hj]
        refine ⟨⟨_, rfl⟩, ?_⟩
        intro e he
        rw [afterFiltersError, hs] at he
        dsimp only at he
        rw [hc] at he
        dsimp only at he
        rw [hj] at he
        exact absurd he (by simp)

/-- C5 amended: once a persisted session is active, `complete_search` never
propagates an exception — it always returns a statistics tuple — and
whenever any step of its phase-2 body raises, the session ends `failed`
carrying that step's error text. -/
theorem complete_search_catches_body_exceptions (stop : Bool) (env : CompleteEnv)
    (s : SearchSession) (sid : Nat) (advF : Bool) (hid : s.id = some sid) :
    (∃ out, (complete_search stop env (some s) advF).result = .ok out) ∧
    (∀ e, firstBodyError stop env s advF = some e →
      ∃ s', (complete_search stop env (some s) advF).finalSession = some s' ∧
        s'.status = "failed" ∧ s'.error_message = some e) := by
  simp only [complete_search, hid]
  by_cases h0 : s.jobs_found = 0
  · rw [if_pos h0]
    refine ⟨⟨_, rfl⟩, ?_⟩
    intro e he
    rw [firstBodyError, if_pos h0] at he
    exact absurd he (by simp)
  · rw [if_neg h0]
    unfold completeSearchBody
    by_cases ha : advF = true
    · rw [if_pos ha]
      constructor
      · cases haf : env.applyFiltersResult with
        | error e0 => exact ⟨_, rfl⟩
        | ok n => exact (afterFilters_spec stop env _ _ _).1
      · intro e he
        rw [firstBodyError, if_neg h0, if_pos ha] at he
        revert he
        cases haf : env.applyFiltersResult with
        | error e0 =>
          intro he
          dsimp only at he ⊢
          obtain rfl : e0 = e := by simpa using he
          exact ⟨s.mark_failed e0, rfl, rfl, rfl⟩
        | ok n =>
          intro he
          dsimp only at he ⊢
          exact ⟨_, (afterFilters_spec stop env _ _ _).2 e he, rfl, rfl⟩
    · rw [if_neg ha]
      constructor
      · exact (afterFilters_spec stop env _ _ _).1
      · intro e he
        rw [firstBodyError, if_neg h0, if_neg ha] at he
        exact ⟨_, (afterFilters_spec stop env _ _ _).2 e he, rfl, rfl⟩

/-- C5 amended witness: with a persisted session of five discovered items
and a scrape step that raises a timeout, the call still returns statistics
and the session ends failed with the timeout text. -/
theorem complete_search_catches_body_exceptions_witness :
    (∃ out, (complete_search false scrapeFailEnv (some sessionWithJobs) false).result = .ok out) ∧
    ∃ s', (complete_search false scrapeFailEnv (some sessionWithJobs) false).finalSession = some s' ∧
      s'.status = "failed" ∧
      s'.error_message = some "TimeoutException: page load timed out" := by
  have h := complete_search_catches_body_exceptions false scrapeFailEnv sessionWithJobs 3 false rfl
  exact ⟨h.1, h.2 _ rfl⟩

/-- C6: a run whose initial search discovers zero items finalizes
immediately as success — the session is `completed` with all four counters
zero and no error message, and the caller receives the all-zero statistics
tuple without an exception. -/
theorem zero_results_complete_success (stop : Bool) (env : RunEnv) (advF : Bool)
    (sid : Nat) (h1 : env.startEnv.insertSessionResult = some sid)
    (h2 : env.startEnv.fillSearchFormResult = .ok 0) :
    (runWorkflow stop env advF).result = .ok (⟨0, 0, 0, 0, sid⟩, [], []) ∧
    ∃ s', (runWorkflow stop env advF).finalSession = some s' ∧
      s'.status = "completed" ∧ s'.jobs_found = 0 ∧ s'.jobs_scraped = 0 ∧
      s'.jobs_saved = 0 ∧ s'.jobs_skipped = 0 ∧ s'.error_message = none := by
  have hss : start_search env.startEnv =
      ⟨.ok (0, sid),
       some (({ SearchSession.new with id := some sid } : SearchSession).mark_completed 0 0 0)⟩ := by
    unfold start_search
    rw [h1, h2]
    rfl
  unfold runWorkflow
  rw [hss]
  exact ⟨rfl, ⟨_, rfl, rfl, rfl, rfl, rfl, rfl, rfl⟩⟩

/-- C6 witness: the concrete zero-discovery run. -/
theorem zero_results_complete_success_witness :
    (runWorkflow false zeroFoundRunEnv false).result = .ok (⟨0, 0, 0, 0, 1⟩, [], []) ∧
    ∃ s', (runWorkflow false zeroFoundRunEnv false).finalSession = some s' ∧
      s'.status = "completed" ∧ s'.jobs_found = 0 ∧ s'.jobs_scraped = 0 ∧
      s'.jobs_saved = 0 ∧ s'.jobs_skipped = 0 ∧ s'.error_message = none :=
  zero_results_complete_success false zeroFoundRunEnv false 1 rfl rfl

/-- C7 (code bug): the spec's user-cancellation design is unreachable in the
current code, although its pieces exist (`check_should_stop` raises the
distinguishable text and `complete_search`'s handler would convert it).
(a) A stop during the phase-1 search is swallowed inside
`GlassdoorScraper.fill_search_form`, which returns 0 found, so the cancelled
run is finalized as a successful empty run — status completed, no error —
instead of a cancellation-tagged failure.  (b) Every nonzero run's scrape
step raises before any persistence-phase stop check can fire: the scraper's
single return list, partial after a swallowed stop, is unpacked into two
targets (`ValueError`; at length exactly two, `TypeError` at the following
`len()`) — never the cancellation message.  (c) Concretely, a stop during
extraction yields the empty partial list and the unpacking `ValueError`, and
(d) the session of such a run is marked failed with that `ValueError` text,
not the "User stopped the scraper" text the claim requires. -/
theorem stop_cancellation_path_unreachable :
    (∀ sid found, ∃ s_1,
      (runWorkflow true
        ⟨⟨some sid, .ok (scraper_fill_search_form true found)⟩, trivialCompleteEnv⟩
        false).finalSession = some s_1 ∧
      s_1.status = "completed" ∧ s_1.error_message = none ∧
      (runWorkflow true
        ⟨⟨some sid, .ok (scraper_fill_search_form true found)⟩, trivialCompleteEnv⟩
        false).result = .ok (⟨0, 0, 0, 0, sid⟩, [], [])) ∧
    (∀ stop found items, ∃ e,
      workflow_scrape_jobs_src stop (found + 1) items = .error e ∧
      e ≠ "User stopped the scraper") ∧
    workflow_scrape_jobs_src true 5 [] =
      .error "ValueError: not enough values to unpack (expected 2, got 0)" ∧
    (complete_search true stoppedScrapeEnv (some sessionWithJobs) false).result =
      .ok (⟨5, 0, 0, 0, 3⟩, [], []) ∧
    (complete_search true stoppedScrapeEnv (some sessionWithJobs) false).finalSession =
      some (sessionWithJobs.mark_failed
        "ValueError: not enough values to unpack (expected 2, got 0)") := by
  refine ⟨?_, ?_, rfl, rfl, rfl⟩
  · intro sid found
    exact ⟨_, rfl, rfl, rfl, rfl⟩
  · intro stop found items
    unfold workflow_scrape_jobs_src
    rw [if_neg (Nat.succ_ne_zero found)]
    generalize scraper_search_jobs stop items = l
    cases l with
    | nil => exact ⟨_, rfl, by decide⟩
    | cons a t =>
      cases t with
      | nil => exact ⟨_, rfl, by decide⟩
      | cons b t2 =>
        cases t2 with
        | nil => exact ⟨_, rfl, by decide⟩
        | cons c t3 => exact ⟨_, rfl, by decide⟩
end WorkflowTheorems
